import Mathlib

/-! # Homstall backend: credential and verification lifecycle

A shallow embedding of the handlers of `src/controllers/authController.js`
(`login`, `forgotPassword`, `resetPassword`, `sendBvnVerification`, `verifyBvn`
and the helper `sendTokenResponse`).

* The user collection is a list of documents; `findOne` returns the first
  document matching a query, `save` writes a document back under its `_id`.
* A handler is a function from the collection, the request and the clock value
  read by `Date.now()` to the resulting collection and the sequence of calls the
  handler body makes on `res` and `next`.  Console output is not part of that
  sequence.
* JavaScript values that reach a loose comparison (`==`) are modelled by `JSVal`;
  a Number is a double, given by its exact rational value, and conversions from
  strings round to the nearest double.  Timestamps are natural numbers.
* Collaborators that are not part of the controller (hashing, JWT signing, the
  mailer, the identity lookup, the random reset token) are parameters.
-/

set_option autoImplicit false

namespace Homstall

/-! ## JavaScript values and loose equality -/

/-- JavaScript values as they occur in a parsed request body, in the lookup
response and in a stored code.  `num q` is the Number written as the decimal
literal of value `q` (it denotes the double nearest to `q`); `obj p` is an object
or array, represented by the string `p` that its conversion to a primitive yields. -/
inductive JSVal where
  | undefined
  | null
  | bool (b : Bool)
  | num (q : ℚ)
  | str (s : String)
  | obj (prim : String)
  deriving DecidableEq, Repr

/-- A Number value as far as `==` can tell: `NaN`, an infinity, or a finite double
given by its exact value (`+0` and `-0` are both `fin 0`). -/
inductive JSNumber where
  | nan
  | inf (negative : Bool)
  | fin (value : ℚ)
  deriving DecidableEq, Repr

/-- Equality of Number values under `==`: `NaN` equals nothing, itself included. -/
def JSNumber.equals : JSNumber → JSNumber → Bool
  | .nan, _ => false
  | _, .nan => false
  | a, b => decide (a = b)

/-- The quotient `a / b` rounded to the nearest integer, ties to the even one. -/
def roundHalfEven (a b : Nat) : Nat :=
  let q := a / b
  let r := a % b
  if 2 * r < b then q
  else if b < 2 * r then q + 1
  else if q % 2 = 0 then q else q + 1

/-- Number of binary digits, by halving at most `fuel` times. -/
def bitLengthAux : Nat → Nat → Nat
  | 0, _ => 0
  | fuel + 1, n => if n = 0 then 0 else bitLengthAux fuel (n / 2) + 1

/-- Number of binary digits of `n`. -/
def bitLength (n : Nat) : Nat := bitLengthAux n n

/-- The binary exponent of `n / d`: the integer `e` with `2 ^ e ≤ n / d < 2 ^ (e + 1)`,
for positive `n` and `d`. -/
def floorLog2 (n d : Nat) : Int :=
  let e : Int := (bitLength n : Int) - (bitLength d : Int)
  let below : Bool :=
    if 0 ≤ e then decide (n < d * 2 ^ e.toNat) else decide (n * 2 ^ (-e).toNat < d)
  if below then e - 1 else e

/-- The double nearest to `n / d` (with the sign given), ties to even: 53 binary
digits in the normal range, multiples of `2 ^ -1074` below it, and an infinity
from `2 ^ 1024` on. -/
def toDouble (negative : Bool) (n d : Nat) : JSNumber :=
  if n = 0 ∨ d = 0 then .fin 0
  else
    let e := floorLog2 n d
    let k : Int := max e (-1022) - 52
    if 0 ≤ k then
      let m := roundHalfEven n (d * 2 ^ k.toNat) * 2 ^ k.toNat
      if 2 ^ 1024 ≤ m then .inf negative
      else .fin (if negative then -(m : ℚ) else (m : ℚ))
    else
      let m := roundHalfEven (n * 2 ^ (-k).toNat) d
      let v : ℚ := mkRat (m : Int) (2 ^ (-k).toNat)
      .fin (if negative then -v else v)

/-- The Number value of the literal of value `q`. -/
def numberOf (q : ℚ) : JSNumber := toDouble (decide (q.num < 0)) q.num.natAbs q.den

/-- White space that `StringToNumber` strips from both ends of a string. -/
def isStrWhiteSpace (c : Char) : Bool :=
  c = ' ' || c = '\t' || c = '\n' || c = '\r' || c.toNat = 11 || c.toNat = 12
    || c.toNat = 160 || c.toNat = 65279 || c.toNat = 8232 || c.toNat = 8233
    || c.toNat = 5760 || (8192 ≤ c.toNat && c.toNat ≤ 8202) || c.toNat = 8239
    || c.toNat = 8287 || c.toNat = 12288

/-- Value of one digit in the given base (decimal digits, then `a`-`f` in either
case), `none` when the character is no digit of that base. -/
def digitOf (base : Nat) (c : Char) : Option Nat :=
  let v :=
    if c.isDigit then c.toNat - 48
    else if 97 ≤ c.toNat ∧ c.toNat ≤ 102 then c.toNat - 87
    else if 65 ≤ c.toNat ∧ c.toNat ≤ 70 then c.toNat - 55
    else base
  if v < base then some v else none

/-- Value of a run of digits continuing the value `acc`. -/
def digitsValueFrom (base : Nat) : Nat → List Char → Option Nat
  | acc, [] => some acc
  | acc, c :: cs =>
    match digitOf base c with
    | none => none
    | some v => digitsValueFrom base (acc * base + v) cs

/-- Value of a run of digits in the given base, `none` when a character is not a
digit or the run is empty. -/
def digitsValue (base : Nat) (cs : List Char) : Option Nat :=
  match cs with
  | [] => none
  | _ => digitsValueFrom base 0 cs

/-- The signed integer after the exponent indicator of a decimal literal. -/
def parseExponent (cs : List Char) : Option Int :=
  match cs with
  | '+' :: ds => (digitsValue 10 ds).map (fun n => (n : Int))
  | '-' :: ds => (digitsValue 10 ds).map (fun n => -(n : Int))
  | ds => (digitsValue 10 ds).map (fun n => (n : Int))

/-- An unsigned decimal literal (`digits`, `digits.`, `digits.digits`, `.digits`,
each with an optional exponent part) as a pair `(m, x)` of value `m * 10 ^ x`. -/
def parseUnsignedDecimal (cs : List Char) : Option (Nat × Int) :=
  let whole := cs.takeWhile Char.isDigit
  let rest := cs.dropWhile Char.isDigit
  match rest with
  | [] => (digitsValue 10 whole).map (fun m => (m, 0))
  | '.' :: rest2 =>
    let frac := rest2.takeWhile Char.isDigit
    let rest3 := rest2.dropWhile Char.isDigit
    match digitsValue 10 (whole ++ frac), rest3 with
    | none, _ => none
    | some m, [] => some (m, -(frac.length : Int))
    | some m, c :: es =>
      if c = 'e' ∨ c = 'E' then
        (parseExponent es).map (fun x => (m, x - (frac.length : Int)))
      else none
  | c :: es =>
    if c = 'e' ∨ c = 'E' then
      match digitsValue 10 whole, parseExponent es with
      | some m, some x => some (m, x)
      | _, _ => none
    else none

/-- The Number value of an unsigned decimal literal or `Infinity`, with the sign
read before it; `NaN` when the characters form neither. -/
def decimalToNumber (negative : Bool) (cs : List Char) : JSNumber :=
  if cs = "Infinity".toList then .inf negative
  else
    match parseUnsignedDecimal cs with
    | none => .nan
    | some (m, x) =>
      if 0 ≤ x then toDouble negative (m * 10 ^ x.toNat) 1
      else toDouble negative m (10 ^ (-x).toNat)

/-- The Number value of the digits of a hexadecimal, octal or binary literal. -/
def radixToNumber (base : Nat) (cs : List Char) : JSNumber :=
  match digitsValue base cs with
  | none => .nan
  | some n => toDouble false n 1

/-- The conversion `StringToNumber`: white space is trimmed from both ends; the
empty string is `0`; a hexadecimal, octal or binary literal (unsigned), an
optionally signed decimal literal or `Infinity` is its value rounded to the
nearest double; everything else is `NaN`. -/
def stringToNumber (s : String) : JSNumber :=
  let cs := ((s.toList.dropWhile isStrWhiteSpace).reverse.dropWhile isStrWhiteSpace).reverse
  match cs with
  | [] => .fin 0
  | '0' :: 'x' :: ds => radixToNumber 16 ds
  | '0' :: 'X' :: ds => radixToNumber 16 ds
  | '0' :: 'o' :: ds => radixToNumber 8 ds
  | '0' :: 'O' :: ds => radixToNumber 8 ds
  | '0' :: 'b' :: ds => radixToNumber 2 ds
  | '0' :: 'B' :: ds => radixToNumber 2 ds
  | '-' :: ds => decimalToNumber true ds
  | '+' :: ds => decimalToNumber false ds
  | ds => decimalToNumber false ds

/-- The conversion `ToNumber` of a boolean. -/
def boolToNumber (b : Bool) : JSNumber := .fin (if b then 1 else 0)

/-- The loose comparison `x == y` of JavaScript (IsLooselyEqual).  Same types
compare strictly; `null` and `undefined` equal each other and nothing else; a
number and a string compare after `StringToNumber`; a boolean is first converted
to a number; an object is first converted to its primitive string.  Two objects
compare by identity: a request value and a stored value are never the same
object, so that case is `false`. -/
def looseEq : JSVal → JSVal → Bool
  | .undefined, .undefined => true
  | .undefined, .null => true
  | .null, .undefined => true
  | .null, .null => true
  | .bool a, .bool b => a == b
  | .num a, .num b => (numberOf a).equals (numberOf b)
  | .str a, .str b => a == b
  | .num a, .str b => (numberOf a).equals (stringToNumber b)
  | .str a, .num b => (stringToNumber a).equals (numberOf b)
  | .bool a, .num b => (boolToNumber a).equals (numberOf b)
  | .num a, .bool b => (numberOf a).equals (boolToNumber b)
  | .bool a, .str b => (boolToNumber a).equals (stringToNumber b)
  | .str a, .bool b => (stringToNumber a).equals (boolToNumber b)
  | .bool a, .obj p => (boolToNumber a).equals (stringToNumber p)
  | .obj p, .bool b => (stringToNumber p).equals (boolToNumber b)
  | .num a, .obj p => (numberOf a).equals (stringToNumber p)
  | .obj p, .num b => (stringToNumber p).equals (numberOf b)
  | .str a, .obj p => a == p
  | .obj p, .str b => p == b
  | _, _ => false

/-- The number a submitted value stands for when it is compared with a numeric
code: a Number is itself, a boolean, a string and an object are converted, and a
missing (`undefined`) or `null` value stands for no number. -/
def codeNumber : JSVal → Option JSNumber
  | .undefined => none
  | .null => none
  | .bool b => some (boolToNumber b)
  | .num q => some (numberOf q)
  | .str s => some (stringToNumber s)
  | .obj p => some (stringToNumber p)

/-- Follows the spec's words, "compares submitted code to stored code" for a
"short numeric secret": the submitted value stands for a number and that number
is the stored code. -/
def codesMatch (submitted : JSVal) (code : ℚ) : Bool :=
  match codeNumber submitted with
  | none => false
  | some v => v.equals (numberOf code)

/-- The comparison `now > expire` where `now` is `Date.now()` and `expire` is a
stored timestamp: an unset field is `undefined`, which converts to `NaN`, and a
comparison with `NaN` is false. -/
def nowAfter (now : Nat) (expire : Option Nat) : Bool :=
  match expire with
  | none => false
  | some e => decide (e < now)

/-! ## Documents and the collection -/

/-- A user document.  `none` in an optional field is an unset (`undefined`) path. -/
structure User where
  id : Nat
  firstName : String
  lastName : String
  email : String
  role : String
  phone : String
  password : String
  resetPasswordToken : Option String
  resetPasswordExpire : Option Nat
  BvnToken : JSVal
  BvnTokenExpire : Option Nat
  isverifed : Bool
  deriving DecidableEq, Repr

/-- The user collection. -/
abbrev Store := List User

/-- The query `User.findById(id)`. -/
def findById (store : Store) (id : Nat) : Option User :=
  store.find? (fun u => decide (u.id = id))

/-- The query `User.findOne` on the `email` path. -/
def findOneByEmail (store : Store) (email : String) : Option User :=
  store.find? (fun u => decide (u.email = email))

/-- The call `user.save()`: the document replaces the stored one with the same `_id`. -/
def save (store : Store) (user : User) : Store :=
  store.map (fun v => if v.id = user.id then user else v)

/-- No two users hold the same reset-token hash: any two documents with the same
stored `resetPasswordToken` have one `_id`.  The hash is only ever written by
`getResetPasswordToken`, from a fresh random token, so the collections the
handlers produce have this property. -/
def ResetTokensDistinct (store : Store) : Prop :=
  ∀ v ∈ store, ∀ w ∈ store, v.resetPasswordToken.isSome = true →
    v.resetPasswordToken = w.resetPasswordToken → v.id = w.id

/-! ## Collaborators -/

/-- The message handed to `sendEmail`. -/
structure EmailMessage where
  email : String
  subject : String
  message : String
  deriving DecidableEq, Repr

/-- Parts of the system that the controller calls but does not define. -/
structure Env where
  /-- The digest `crypto.createHash('sha256').update(s).digest('hex')`. -/
  sha256hex : String → String
  /-- The method `user.matchPassword(entered)` of the User model. -/
  matchPassword : User → String → Bool
  /-- The method `user.getSignedJwtToken()` of the User model. -/
  getSignedJwtToken : User → String
  /-- Validation and hashing that `save()` applies to a modified password:
  `none` when the save is rejected, otherwise the stored hash. -/
  presavePassword : Option String → Option String
  /-- Lifetime in milliseconds that `getResetPasswordToken` gives a reset token. -/
  resetWindow : Nat
  /-- The setting `process.env.JWT_COOKIE_EXPIRE`, in days. -/
  jwtCookieExpire : Nat
  /-- The test `process.env.NODE_ENV === 'production'`. -/
  production : Bool
  /-- The call `sendEmail(msg)`: `true` when the promise resolves, `false` when it rejects. -/
  sendEmail : EmailMessage → Bool

/-- Modelled from the spec: `user.getResetPasswordToken()` of the absent User
model.  The cleartext token `tok` is the random value; only its one-way hash and
an expiry are put on the document, and the cleartext is returned. -/
def getResetPasswordToken (env : Env) (tok : String) (now : Nat) (user : User) :
    String × User :=
  (tok, { user with
    resetPasswordToken := some (env.sha256hex tok)
    resetPasswordExpire := some (now + env.resetWindow) })

/-! ## Responses -/

/-- The error `new ErrorResponse(message, statusCode)`. -/
structure ErrorResponse where
  message : String
  statusCode : Nat
  deriving DecidableEq, Repr

/-- The cookie set by `res.cookie('token', token, options)`. -/
structure Cookie where
  name : String
  value : String
  expires : Nat
  httpOnly : Bool
  secure : Bool
  deriving DecidableEq, Repr

/-- Bodies passed to `res.json`. -/
inductive Body where
  /-- A body with `success: true` and the session `token`. -/
  | token (token : String)
  /-- A body with `success: true` and a string as `data`. -/
  | text (data : String)
  /-- A body with `success: true` and the user document as `data`. -/
  | user (data : User)
  /-- A body with `success: true` and `data` made of `firstName`, `lastName`, `mobile`. -/
  | identity (firstName lastName mobile : JSVal)
  /-- A body made of `status` and `message`. -/
  | status (status message : String)
  deriving DecidableEq, Repr

/-- A call the handler body makes. -/
inductive Call where
  /-- The chain `res.status(code)[.cookie(...)].json(body)`. -/
  | json (code : Nat) (cookie : Option Cookie) (body : Body)
  /-- The call `next(err)`. -/
  | next (err : ErrorResponse)
  /-- An exception leaves the handler body (its promise rejects). -/
  | throws (error : String)
  deriving DecidableEq, Repr

/-- What a handler leaves behind: the collection and the calls it made, in order. -/
structure Result where
  store : Store
  calls : List Call
  deriving DecidableEq, Repr

/-- The helper `sendTokenResponse(user, statusCode, res)`. -/
def sendTokenResponse (env : Env) (user : User) (statusCode : Nat) (now : Nat) : Call :=
  let token := env.getSignedJwtToken user
  .json statusCode
    (some
      { name := "token"
        value := token
        expires := now + env.jwtCookieExpire * 24 * 60 * 60 * 1000
        httpOnly := true
        secure := env.production })
    (.token token)

/-- A call that hands a session token to the client: a body carrying a token, or a
cookie. -/
def Call.issuesSession : Call → Bool
  | .json _ (some _) _ => true
  | .json _ none (.token _) => true
  | _ => false

/-- A call of `res.status(...).json(...)`. -/
def Call.isResponse : Call → Bool
  | .json _ _ _ => true
  | _ => false

/-! ## Handlers -/

/-- Truthiness of a body field that is a string or absent. -/
def truthy (v : Option String) : Bool :=
  match v with
  | none => false
  | some s => decide (s ≠ "")

/-- Body of `POST /api/v1/auth/login`. -/
structure LoginBody where
  email : Option String
  password : Option String
  deriving DecidableEq, Repr

/-- The handler `exports.login`. -/
def login (env : Env) (store : Store) (body : LoginBody) (now : Nat) : Result :=
  if !truthy body.email || !truthy body.password then
    ⟨store, [.next ⟨"Please provide an email and password", 400⟩]⟩
  else
    match findOneByEmail store (body.email.getD "") with
    | none => ⟨store, [.next ⟨"Invalid credentials", 401⟩]⟩
    | some user =>
      if !env.matchPassword user (body.password.getD "") then
        ⟨store, [.next ⟨"Invalid credentials", 401⟩]⟩
      else
        ⟨store, [sendTokenResponse env user 200 now]⟩

/-- Request of `POST /api/v1/auth/forgotpassword` with a string `email`. -/
structure ForgotRequest where
  email : String
  protocol : String
  host : String
  deriving DecidableEq, Repr

/-- The text mailed by `forgotPassword` for a reset token. -/
def resetMessage (req : ForgotRequest) (resetToken : String) : String :=
  "You are receiving this email because you (or someone else) has requested the reset of a password. Please make a PUT request to: \n\n "
    ++ (req.protocol ++ "://" ++ req.host ++ "/api/v1/auth/resetpassword/" ++ resetToken)

/-- The handler `exports.forgotPassword`; `tok` is the random cleartext drawn by
`getResetPasswordToken`. -/
def forgotPassword (env : Env) (store : Store) (req : ForgotRequest) (tok : String)
    (now : Nat) : Result :=
  match findOneByEmail store req.email with
  | none => ⟨store, [.next ⟨"There is no user with that email", 404⟩]⟩
  | some user0 =>
    let (resetToken, user) := getResetPasswordToken env tok now user0
    let store1 := save store user
    if env.sendEmail
        { email := user.email
          subject := "Password reset token"
          message := resetMessage req resetToken } then
      ⟨store1, [.json 200 none (.text "Email sent"), .json 200 none (.user user)]⟩
    else
      let user2 := { user with resetPasswordToken := none, resetPasswordExpire := none }
      ⟨save store1 user2, [.next ⟨"Email could not be sent", 500⟩]⟩

/-- The query of `resetPassword`: the stored hash equals `hash` and the stored
expiry is greater than `now`. -/
def resetQuery (hash : String) (now : Nat) (u : User) : Bool :=
  decide (u.resetPasswordToken = some hash) &&
    (match u.resetPasswordExpire with
      | none => false
      | some e => decide (now < e))

/-- The handler `exports.resetPassword`. -/
def resetPassword (env : Env) (store : Store) (resettoken : String)
    (password : Option String) (now : Nat) : Result :=
  let resetPasswordToken := env.sha256hex resettoken
  match store.find? (resetQuery resetPasswordToken now) with
  | none => ⟨store, [.next ⟨"Invalid token", 400⟩]⟩
  | some user0 =>
    match env.presavePassword password with
    | none => ⟨store, [.throws "ValidationError"]⟩
    | some hashed =>
      let user := { user0 with
        password := hashed
        resetPasswordToken := none
        resetPasswordExpire := none }
      ⟨save store user, [sendTokenResponse env user 200 now]⟩

/-- The `data` member of a lookup response. -/
structure LookupData where
  first_name : JSVal
  last_name : JSVal
  mobile : JSVal
  deriving DecidableEq, Repr

/-- The parsed answer of the identity lookup; `data` is absent on a failure. -/
structure LookupResponse where
  status : JSVal
  data : Option LookupData
  deriving DecidableEq, Repr

/-- The handler `exports.sendBvnVerification`; `lookup` is what `fetch(...).then(res => res.json())`
yields, `none` when that promise rejects. -/
def sendBvnVerification (store : Store) (userId : Nat) (lookup : Option LookupResponse)
    (now : Nat) : Result :=
  match lookup with
  | none => ⟨store, []⟩
  | some response =>
    if looseEq response.status (.str "false") then
      ⟨store, [.next ⟨"Enter a valid BVN Number", 400⟩]⟩
    else
      match findById store userId with
      | none => ⟨store, []⟩
      | some user0 =>
        let user := { user0 with
          BvnToken := .num 1234
          BvnTokenExpire := some (now + 10 * 60 * 1000) }
        let store1 := save store user
        match response.data with
        | none => ⟨store1, []⟩
        | some d => ⟨store1, [.json 200 none (.identity d.first_name d.last_name d.mobile)]⟩

/-- The handler `exports.verifyBvn`. -/
def verifyBvn (store : Store) (userId : Nat) (bvnCode : JSVal) (now : Nat) : Result :=
  match findById store userId with
  | none => ⟨store, [.throws "TypeError"]⟩
  | some user =>
    if nowAfter now user.BvnTokenExpire then
      ⟨store, [.json 400 none (.status "failed" "Bvn token expired")]⟩
    else if looseEq bvnCode user.BvnToken then
      ⟨save store { user with isverifed := true },
        [.json 200 none (.status "success" "User is verified")]⟩
    else
      ⟨store, [.json 401 none (.status "failed" "invalid Token")]⟩

/-! ## Sample data -/

/-- A user without reset token and without verification code. -/
def alice : User :=
  { id := 1, firstName := "Alice", lastName := "A", email := "a@x.com", role := "user",
    phone := "0800", password := "h:pw1", resetPasswordToken := none,
    resetPasswordExpire := none, BvnToken := .undefined, BvnTokenExpire := none,
    isverifed := false }

/-- A second user. -/
def bob : User :=
  { id := 2, firstName := "Bob", lastName := "B", email := "b@x.com", role := "user",
    phone := "0801", password := "h:pw2", resetPasswordToken := none,
    resetPasswordExpire := none, BvnToken := .undefined, BvnTokenExpire := none,
    isverifed := false }

/-- A sample environment.  Its `sha256hex` is the real digest on the one token
used below, `abc`. -/
def sampleEnv (mailOk : Bool) : Env :=
  { sha256hex := fun s =>
      if s = "abc" then "ba7816bf8f01cfea414140de5dae2223b00361a396177a9cb410ff61f20015ad"
      else "other:" ++ s
    matchPassword := fun u p => decide (u.password = "h:" ++ p)
    getSignedJwtToken := fun u => "jwt:" ++ u.email
    presavePassword := fun p => p.map (fun s => "h:" ++ s)
    resetWindow := 600000
    jwtCookieExpire := 30
    production := false
    sendEmail := fun _ => mailOk }

/-- The user of the sample data after a verification code was issued at time `5`. -/
def aliceCoded : User :=
  { alice with BvnToken := .num 1234, BvnTokenExpire := some 600005 }

/-- A user holding the hash of the reset token `abc`, valid until time `1000`. -/
def withAbcToken (u : User) : User :=
  { u with
    resetPasswordToken := some "ba7816bf8f01cfea414140de5dae2223b00361a396177a9cb410ff61f20015ad"
    resetPasswordExpire := some 1000 }

/-- A forgot-password request for the first sample user. -/
def aliceForgot : ForgotRequest :=
  { email := "a@x.com", protocol := "https", host := "homstall.example" }

/-! ## Lemmas on the collection -/

theorem findById_id {store : Store} {id : Nat} {u : User}
    (h : findById store id = some u) : u.id = id := by
  have := List.find?_some h
  simpa using this

theorem findById_mem {store : Store} {id : Nat} {u : User}
    (h : findById store id = some u) : u ∈ store :=
  List.mem_of_find?_eq_some h

theorem findById_save_self {store : Store} {id : Nat} {u0 u1 : User}
    (h : findById store id = some u0) (hid : u1.id = id) :
    findById (save store u1) id = some u1 := by
  induction store with
  | nil => simp [findById] at h
  | cons v vs ih =>
    unfold findById save at *
    simp only [List.map_cons, List.find?_cons] at h ⊢
    by_cases hv : v.id = id
    · have hv1 : v.id = u1.id := by rw [hv, hid]
      simp [hv1, hid]
    · have hv1 : ¬ v.id = u1.id := by rw [hid]; exact hv
      simp only [hv, decide_False] at h
      simp only [hv1, if_false, hv, decide_False]
      exact ih h

theorem findById_save_other {store : Store} {id : Nat} {u1 : User}
    (hid : id ≠ u1.id) :
    findById (save store u1) id = findById store id := by
  induction store with
  | nil => rfl
  | cons v vs ih =>
    unfold findById save at *
    simp only [List.map_cons, List.find?_cons]
    by_cases hv : v.id = u1.id
    · have hv1 : ¬ v.id = id := by rw [hv]; exact fun h => hid h.symm
      have hv2 : ¬ u1.id = id := fun h => hid h.symm
      simp only [hv, if_true, hv2, decide_False, hv1]
      have := ih
      simpa [hv] using this
    · simp only [hv, if_false]
      by_cases hv1 : v.id = id
      · simp [hv1]
      · simp only [hv1, decide_False]
        exact ih

theorem findOneByEmail_email {store : Store} {email : String} {u : User}
    (h : findOneByEmail store email = some u) : u.email = email := by
  have := List.find?_some h
  simpa using this

theorem findOneByEmail_save {store : Store} {email : String} {u0 u1 : User}
    (h : findOneByEmail store email = some u0) (hid : u1.id = u0.id)
    (hemail : u1.email = email) :
    findOneByEmail (save store u1) email = some u1 := by
  induction store with
  | nil => simp [findOneByEmail] at h
  | cons v vs ih =>
    unfold findOneByEmail save at *
    simp only [List.map_cons, List.find?_cons] at h ⊢
    by_cases hv : v.email = email
    · simp only [hv, decide_True, Option.some.injEq] at h
      have hv1 : v.id = u1.id := by rw [h, hid]
      simp [hv1, hemail]
    · simp only [hv, decide_False] at h
      by_cases hv1 : v.id = u1.id
      · simp [hv1, hemail]
      · simp only [hv1, if_false, hv, decide_False]
        exact ih h

theorem mem_save {store : Store} {u1 v : User} (h : v ∈ save store u1) :
    v = u1 ∨ (v ∈ store ∧ v.id ≠ u1.id) := by
  unfold save at h
  rcases List.mem_map.mp h with ⟨w, hw, rfl⟩
  by_cases hid : w.id = u1.id
  · left; simp [hid]
  · right; simp [hid, hw]

/-! ## Lemmas on numbers and codes -/

theorem bitLengthAux_le (fuel n b : Nat) (h : n < 2 ^ b) : bitLengthAux fuel n ≤ b := by
  induction fuel generalizing n b with
  | zero => simp [bitLengthAux]
  | succ f ih =>
    unfold bitLengthAux
    split
    · exact Nat.zero_le _
    · rename_i hn
      cases b with
      | zero => simp at h; exact absurd h hn
      | succ b =>
        have : n / 2 < 2 ^ b := by
          rw [Nat.div_lt_iff_lt_mul (by decide)]
          rw [Nat.pow_succ] at h
          exact h
        exact Nat.succ_le_succ (ih _ _ this)

theorem roundHalfEven_one (a : Nat) : roundHalfEven a 1 = a := by
  simp [roundHalfEven, Nat.mod_one]

theorem floorLog2_one_le (n : Nat) (h : n < 2 ^ 53) : floorLog2 n 1 ≤ 52 := by
  have hb : bitLength n ≤ 53 := bitLengthAux_le n n 53 h
  have h1 : bitLength 1 = 1 := by decide
  unfold floorLog2
  simp only [h1]
  split <;> omega

set_option exponentiation.threshold 2048 in
theorem toDouble_nat (negative : Bool) (n : Nat) (h : n < 2 ^ 53) :
    toDouble negative n 1 = .fin (if negative then -(n : ℚ) else (n : ℚ)) := by
  unfold toDouble
  by_cases hn : n = 0
  · subst hn; simp
  · have he := floorLog2_one_le n h
    simp only [hn, one_ne_zero, or_self, if_false]
    split
    · rename_i hk
      have hk0 : max (floorLog2 n 1) (-1022) - 52 = 0 := by omega
      simp only [hk0, Int.toNat_zero, pow_zero, mul_one, roundHalfEven_one]
      have hlt : ¬ (2 ^ 1024 ≤ n) := by omega
      rw [if_neg hlt]
    · simp only [roundHalfEven_one]
      generalize (-(max (floorLog2 n 1) (-1022) - 52)).toNat = j
      have hpos : ((2 : ℚ) ^ j) ≠ 0 := by positivity
      have hval : mkRat ((n * 2 ^ j : Nat) : Int) (2 ^ j) = (n : ℚ) := by
        rw [Rat.mkRat_eq_div]
        push_cast
        field_simp
      rw [hval]

theorem numberOf_intCast (m : Int) (h : m.natAbs < 2 ^ 53) :
    numberOf (m : ℚ) = .fin (m : ℚ) := by
  unfold numberOf
  rw [Rat.num_intCast, Rat.den_intCast, toDouble_nat _ _ h]
  congr 1
  rw [Nat.cast_natAbs]
  by_cases hm : m < 0
  · simp only [hm, decide_True, if_true, abs_of_neg hm]
    push_cast
    ring
  · simp only [hm, decide_False, abs_of_nonneg (not_lt.mp hm)]
    simp

theorem looseEq_num_right (x : JSVal) (code : ℚ) :
    looseEq x (.num code) = codesMatch x code := by
  cases x <;> rfl

theorem codesMatch_intCast (m c : Int) (hm : m.natAbs < 2 ^ 53) (hc : c.natAbs < 2 ^ 53) :
    codesMatch (.num (m : ℚ)) (c : ℚ) = true ↔ m = c := by
  simp only [codesMatch, codeNumber, numberOf_intCast m hm, numberOf_intCast c hc,
    JSNumber.equals, decide_eq_true_eq, JSNumber.fin.injEq, Int.cast_inj]

/-! ## Login -/

/-- Claim C1: a login request with email and password present gets the same
outcome, `next(ErrorResponse('Invalid credentials', 401))`, when no user has the
email and when a user has it but `matchPassword` rejects the password; neither
outcome changes the collection or hands out a session token or cookie. -/
theorem login_invalid_credentials_indistinguishable (env : Env) (s₁ s₂ : Store)
    (e₁ p₁ e₂ p₂ : String) (now₁ now₂ : Nat) (u : User)
    (he₁ : e₁ ≠ "") (hp₁ : p₁ ≠ "") (he₂ : e₂ ≠ "") (hp₂ : p₂ ≠ "")
    (habsent : findOneByEmail s₁ e₁ = none)
    (hpresent : findOneByEmail s₂ e₂ = some u)
    (hreject : env.matchPassword u p₂ = false) :
    login env s₁ ⟨some e₁, some p₁⟩ now₁ = ⟨s₁, [.next ⟨"Invalid credentials", 401⟩]⟩ ∧
    login env s₂ ⟨some e₂, some p₂⟩ now₂ = ⟨s₂, [.next ⟨"Invalid credentials", 401⟩]⟩ ∧
    (login env s₁ ⟨some e₁, some p₁⟩ now₁).calls
      = (login env s₂ ⟨some e₂, some p₂⟩ now₂).calls ∧
    (∀ c ∈ (login env s₁ ⟨some e₁, some p₁⟩ now₁).calls, c.issuesSession = false) ∧
    (∀ c ∈ (login env s₂ ⟨some e₂, some p₂⟩ now₂).calls, c.issuesSession = false) := by
  have h₁ : login env s₁ ⟨some e₁, some p₁⟩ now₁
      = ⟨s₁, [.next ⟨"Invalid credentials", 401⟩]⟩ := by
    simp [login, truthy, he₁, hp₁, habsent]
  have h₂ : login env s₂ ⟨some e₂, some p₂⟩ now₂
      = ⟨s₂, [.next ⟨"Invalid credentials", 401⟩]⟩ := by
    simp [login, truthy, he₂, hp₂, hpresent, hreject]
  refine ⟨h₁, h₂, ?_, ?_, ?_⟩
  · rw [h₁, h₂]
  · rw [h₁]; simp [Call.issuesSession]
  · rw [h₂]; simp [Call.issuesSession]

theorem login_invalid_credentials_indistinguishable_witness :
    login (sampleEnv true) [alice] ⟨some "nobody@x.com", some "pw1"⟩ 7
      = ⟨[alice], [.next ⟨"Invalid credentials", 401⟩]⟩ ∧
    login (sampleEnv true) [alice] ⟨some "a@x.com", some "wrong"⟩ 9
      = ⟨[alice], [.next ⟨"Invalid credentials", 401⟩]⟩ :=
  have h := login_invalid_credentials_indistinguishable (sampleEnv true) [alice] [alice]
    "nobody@x.com" "pw1" "a@x.com" "wrong" 7 9 alice
    (by decide) (by decide) (by decide) (by decide) (by decide) (by decide) (by decide)
  ⟨h.1, h.2.1⟩

/-! ## Submitting a verification code -/

/-- Claim C2: when the clock is past the stored `BvnTokenExpire`, `verifyBvn`
answers 400 with message `Bvn token expired` whatever code is submitted, also a
matching one, and the collection (the `isverifed` flag and every other field of
every user) is unchanged. -/
theorem verifyBvn_expired (store : Store) (userId : Nat) (user : User) (bvnCode : JSVal)
    (now e : Nat)
    (huser : findById store userId = some user)
    (hexpire : user.BvnTokenExpire = some e)
    (hlate : e < now) :
    verifyBvn store userId bvnCode now
      = ⟨store, [.json 400 none (.status "failed" "Bvn token expired")]⟩ := by
  simp [verifyBvn, huser, hexpire, nowAfter, hlate]

theorem verifyBvn_expired_witness :
    looseEq (.num 1234) aliceCoded.BvnToken = true ∧
    verifyBvn [aliceCoded] 1 (.num 1234) 600006
      = ⟨[aliceCoded], [.json 400 none (.status "failed" "Bvn token expired")]⟩ :=
  ⟨by decide,
    verifyBvn_expired [aliceCoded] 1 aliceCoded (.num 1234) 600006 600005
      (by decide) (by decide) (by decide)⟩

/-- Claim C3: for a user holding a stored numeric code and an expiry that the
clock has not passed, `verifyBvn` answers 200 `User is verified` and stores
`isverifed = true` on the user exactly when the submitted code matches the stored
code, that is, when the submitted value stands for the number that is stored;
otherwise it answers 401 `invalid Token` and the collection, the flag included,
is unchanged.  A submitted whole number below `2 ^ 53` matches a stored whole
code exactly when the two are equal, and a missing or `null` code never matches. -/
theorem verifyBvn_live_code (store : Store) (userId : Nat) (user : User) (bvnCode : JSVal)
    (now e : Nat) (code : ℚ)
    (huser : findById store userId = some user)
    (hcode : user.BvnToken = .num code)
    (hexpire : user.BvnTokenExpire = some e)
    (hlive : now ≤ e) :
    (codesMatch bvnCode code = true →
      verifyBvn store userId bvnCode now
        = ⟨save store { user with isverifed := true },
            [.json 200 none (.status "success" "User is verified")]⟩ ∧
      findById (verifyBvn store userId bvnCode now).store userId
        = some { user with isverifed := true }) ∧
    (codesMatch bvnCode code = false →
      verifyBvn store userId bvnCode now
        = ⟨store, [.json 401 none (.status "failed" "invalid Token")]⟩) ∧
    ((verifyBvn store userId bvnCode now).calls
        = [.json 200 none (.status "success" "User is verified")]
      ↔ codesMatch bvnCode code = true) ∧
    (∀ m c : Int, m.natAbs < 2 ^ 53 → c.natAbs < 2 ^ 53 →
      bvnCode = .num (m : ℚ) → code = (c : ℚ) →
      ((verifyBvn store userId bvnCode now).calls
          = [.json 200 none (.status "success" "User is verified")]
        ↔ m = c)) ∧
    (bvnCode = .undefined ∨ bvnCode = .null →
      verifyBvn store userId bvnCode now
        = ⟨store, [.json 401 none (.status "failed" "invalid Token")]⟩) := by
  have hnot : nowAfter now user.BvnTokenExpire = false := by
    simp [nowAfter, hexpire, Nat.not_lt.mpr hlive]
  have hloose : looseEq bvnCode user.BvnToken = codesMatch bvnCode code := by
    rw [hcode]; exact looseEq_num_right bvnCode code
  have hyes : codesMatch bvnCode code = true →
      verifyBvn store userId bvnCode now
        = ⟨save store { user with isverifed := true },
            [.json 200 none (.status "success" "User is verified")]⟩ := by
    intro h
    simp [verifyBvn, huser, hnot, hloose, h]
  have hno : codesMatch bvnCode code = false →
      verifyBvn store userId bvnCode now
        = ⟨store, [.json 401 none (.status "failed" "invalid Token")]⟩ := by
    intro h
    simp [verifyBvn, huser, hnot, hloose, h]
  have hiff : (verifyBvn store userId bvnCode now).calls
        = [.json 200 none (.status "success" "User is verified")]
      ↔ codesMatch bvnCode code = true := by
    cases h : codesMatch bvnCode code
    · rw [hno h]; simp
    · rw [hyes h]; simp
  refine ⟨fun h => ⟨hyes h, ?_⟩, hno, hiff, ?_, ?_⟩
  · rw [hyes h]
    have hid : user.id = userId := findById_id huser
    exact findById_save_self huser hid
  · intro m c hm hc hsub hstored
    rw [hiff, hsub, hstored]
    exact codesMatch_intCast m c hm hc
  · intro h
    apply hno
    rcases h with h | h <;> rw [h] <;> rfl

theorem verifyBvn_live_code_witness :
    verifyBvn [aliceCoded] 1 (.str "0x4D2") 600005
      = ⟨[{ aliceCoded with isverifed := true }],
          [.json 200 none (.status "success" "User is verified")]⟩ ∧
    verifyBvn [aliceCoded] 1 (.str "1234.0") 600005
      = ⟨[{ aliceCoded with isverifed := true }],
          [.json 200 none (.status "success" "User is verified")]⟩ ∧
    verifyBvn [aliceCoded] 1 (.num 4321) 600005
      = ⟨[aliceCoded], [.json 401 none (.status "failed" "invalid Token")]⟩ :=
  ⟨((verifyBvn_live_code [aliceCoded] 1 aliceCoded (.str "0x4D2") 600005 600005 1234
      (by decide) rfl (by decide) (by decide)).1 (by decide)).1,
    ((verifyBvn_live_code [aliceCoded] 1 aliceCoded (.str "1234.0") 600005 600005 1234
      (by decide) rfl (by decide) (by decide)).1 (by decide)).1,
    (verifyBvn_live_code [aliceCoded] 1 aliceCoded (.num 4321) 600005 600005 1234
      (by decide) rfl (by decide) (by decide)).2.1 (by decide)⟩

/-! ## Resetting a password -/

theorem resetQuery_token {hash : String} {now : Nat} {u : User}
    (h : resetQuery hash now u = true) : u.resetPasswordToken = some hash := by
  unfold resetQuery at h
  simp only [Bool.and_eq_true, decide_eq_true_eq] at h
  exact h.1

theorem find_resetQuery_none {hash : String} {now : Nat} {store : Store}
    (hexpired : ∀ u ∈ store, u.resetPasswordToken = some hash →
      ∀ e, u.resetPasswordExpire = some e → e ≤ now) :
    store.find? (resetQuery hash now) = none := by
  rw [List.find?_eq_none]
  intro u hu hq
  have htoken := resetQuery_token hq
  unfold resetQuery at hq
  cases he : u.resetPasswordExpire with
  | none => simp [he] at hq
  | some e =>
    have hle := hexpired u hu htoken e he
    simp [he, Nat.not_lt.mpr hle] at hq

/-- Claim C5: when every user whose stored `resetPasswordToken` is the SHA-256 hex
digest of the submitted token has a `resetPasswordExpire` that is not greater than
the clock, `resetPassword` forwards `ErrorResponse('Invalid token', 400)` and the
collection is unchanged, so no password, token hash or expiry changes. -/
theorem resetPassword_expired_token (env : Env) (store : Store) (resettoken : String)
    (password : Option String) (now : Nat)
    (hexpired : ∀ u ∈ store, u.resetPasswordToken = some (env.sha256hex resettoken) →
      ∀ e, u.resetPasswordExpire = some e → e ≤ now) :
    resetPassword env store resettoken password now
      = ⟨store, [.next ⟨"Invalid token", 400⟩]⟩ := by
  have hnone : store.find? (resetQuery (env.sha256hex resettoken) now) = none :=
    find_resetQuery_none hexpired
  unfold resetPassword
  simp only [hnone]

theorem resetPassword_expired_token_witness :
    (withAbcToken alice).resetPasswordToken = some ((sampleEnv true).sha256hex "abc") ∧
    resetPassword (sampleEnv true) [withAbcToken alice, bob] "abc" (some "new") 1000
      = ⟨[withAbcToken alice, bob], [.next ⟨"Invalid token", 400⟩]⟩ :=
  ⟨by decide,
    resetPassword_expired_token (sampleEnv true) [withAbcToken alice, bob] "abc"
      (some "new") 1000 (by decide)⟩

theorem save_keeps_distinct {store : Store} {u0 u1 : User}
    (hinv : ResetTokensDistinct store) (hmem : u0 ∈ store) (hid : u1.id = u0.id)
    (htoken : u1.resetPasswordToken = u0.resetPasswordToken ∨
      ∀ w ∈ store, w.resetPasswordToken ≠ u1.resetPasswordToken ∨
        u1.resetPasswordToken = none) :
    ResetTokensDistinct (save store u1) := by
  intro v hv w hw hsome heq
  rcases mem_save hv with rfl | ⟨hvmem, hvid⟩
  · rcases mem_save hw with rfl | ⟨hwmem, hwid⟩
    · rfl
    · rcases htoken with hsame | hfresh
      · rw [hid]
        exact hinv u0 hmem w hwmem (by rw [← hsame]; exact hsome) (by rw [← hsame]; exact heq)
      · rcases hfresh w hwmem with hne | hnone
        · exact absurd heq.symm hne
        · rw [hnone] at hsome; simp at hsome
  · rcases mem_save hw with rfl | ⟨hwmem, hwid⟩
    · rcases htoken with hsame | hfresh
      · rw [hid]
        exact hinv v hvmem u0 hmem hsome (by rw [← hsame]; exact heq)
      · rcases hfresh v hvmem with hne | hnone
        · exact absurd heq hne
        · rw [hnone] at heq; rw [heq] at hsome; simp at hsome
    · exact hinv v hvmem w hwmem hsome heq

theorem resetPassword_keeps_distinct (env : Env) (store : Store) (resettoken : String)
    (password : Option String) (now : Nat) (hinv : ResetTokensDistinct store) :
    ResetTokensDistinct (resetPassword env store resettoken password now).store := by
  cases hfind : store.find? (resetQuery (env.sha256hex resettoken) now) with
  | none =>
    have hrun : (resetPassword env store resettoken password now).store = store := by
      simp [resetPassword, hfind]
    rw [hrun]; exact hinv
  | some user0 =>
    cases hpre : env.presavePassword password with
    | none =>
      have hrun : (resetPassword env store resettoken password now).store = store := by
        simp [resetPassword, hfind, hpre]
      rw [hrun]; exact hinv
    | some hashed =>
      have hrun : (resetPassword env store resettoken password now).store
          = save store { user0 with
              password := hashed
              resetPasswordToken := none
              resetPasswordExpire := none } := by
        simp [resetPassword, hfind, hpre]
      rw [hrun]
      exact save_keeps_distinct hinv (List.mem_of_find?_eq_some hfind) rfl
        (Or.inr (fun _ _ => Or.inr rfl))

theorem forgotPassword_keeps_distinct (env : Env) (store : Store) (req : ForgotRequest)
    (tok : String) (now : Nat) (hinv : ResetTokensDistinct store)
    (hfresh : ∀ w ∈ store, w.resetPasswordToken ≠ some (env.sha256hex tok)) :
    ResetTokensDistinct (forgotPassword env store req tok now).store := by
  cases hfind : findOneByEmail store req.email with
  | none =>
    have hrun : (forgotPassword env store req tok now).store = store := by
      simp [forgotPassword, hfind]
    rw [hrun]; exact hinv
  | some user0 =>
    have hmem : user0 ∈ store := List.mem_of_find?_eq_some hfind
    have h1 : ResetTokensDistinct (save store { user0 with
        resetPasswordToken := some (env.sha256hex tok)
        resetPasswordExpire := some (now + env.resetWindow) }) :=
      save_keeps_distinct hinv hmem rfl (Or.inr (fun w hw => Or.inl (hfresh w hw)))
    cases hmail : env.sendEmail
        { email := user0.email
          subject := "Password reset token"
          message := resetMessage req tok }
    case true =>
      have hrun : (forgotPassword env store req tok now).store
          = save store { user0 with
              resetPasswordToken := some (env.sha256hex tok)
              resetPasswordExpire := some (now + env.resetWindow) } := by
        simp [forgotPassword, hfind, getResetPasswordToken, hmail]
      rw [hrun]; exact h1
    case false =>
      have hrun : (forgotPassword env store req tok now).store
          = save
              (save store { user0 with
                resetPasswordToken := some (env.sha256hex tok)
                resetPasswordExpire := some (now + env.resetWindow) })
              { user0 with resetPasswordToken := none, resetPasswordExpire := none } := by
        simp [forgotPassword, hfind, getResetPasswordToken, hmail]
      rw [hrun]
      have hmem1 : ({ user0 with
          resetPasswordToken := some (env.sha256hex tok)
          resetPasswordExpire := some (now + env.resetWindow) } : User)
          ∈ save store { user0 with
            resetPasswordToken := some (env.sha256hex tok)
            resetPasswordExpire := some (now + env.resetWindow) } := by
        unfold save
        exact List.mem_map.mpr ⟨user0, hmem, by simp⟩
      exact save_keeps_distinct h1 hmem1 rfl (Or.inr (fun _ _ => Or.inr rfl))

theorem verifyBvn_keeps_distinct (store : Store) (userId : Nat) (bvnCode : JSVal)
    (now : Nat) (hinv : ResetTokensDistinct store) :
    ResetTokensDistinct (verifyBvn store userId bvnCode now).store := by
  cases hfind : findById store userId with
  | none =>
    have hrun : (verifyBvn store userId bvnCode now).store = store := by
      simp [verifyBvn, hfind]
    rw [hrun]; exact hinv
  | some user =>
    have hcases : (verifyBvn store userId bvnCode now).store = store ∨
        (verifyBvn store userId bvnCode now).store
          = save store { user with isverifed := true } := by
      unfold verifyBvn
      simp only [hfind]
      split
      · exact Or.inl rfl
      · split
        · exact Or.inr rfl
        · exact Or.inl rfl
    rcases hcases with hrun | hrun
    · rw [hrun]; exact hinv
    · rw [hrun]
      exact save_keeps_distinct hinv (findById_mem hfind) rfl (Or.inl rfl)

theorem sendBvnVerification_keeps_distinct (store : Store) (userId : Nat)
    (lookup : Option LookupResponse) (now : Nat) (hinv : ResetTokensDistinct store) :
    ResetTokensDistinct (sendBvnVerification store userId lookup now).store := by
  cases lookup with
  | none => exact hinv
  | some response =>
    cases hfind : findById store userId with
    | none =>
      have hrun : (sendBvnVerification store userId (some response) now).store = store := by
        unfold sendBvnVerification
        simp only [hfind]
        split <;> rfl
      rw [hrun]; exact hinv
    | some user0 =>
      have hcases : (sendBvnVerification store userId (some response) now).store = store ∨
          (sendBvnVerification store userId (some response) now).store
            = save store { user0 with
                BvnToken := .num 1234
                BvnTokenExpire := some (now + 10 * 60 * 1000) } := by
        unfold sendBvnVerification
        simp only [hfind]
        split
        · exact Or.inl rfl
        · cases response.data <;> exact Or.inr rfl
      rcases hcases with hrun | hrun
      · rw [hrun]; exact hinv
      · rw [hrun]
        exact save_keeps_distinct hinv (findById_mem hfind) rfl (Or.inl rfl)

/-- Claim C4: in a store state of the system, where no two users hold the same
reset-token hash, if `resetPassword` succeeds with a token (it stores the new
password and hands out a session token), a second call with the same cleartext on
the resulting collection, at any time and with any new password, forwards
`ErrorResponse('Invalid token', 400)` and leaves the collection unchanged, so it
changes no password. -/
theorem resetPassword_single_use (env : Env) (store : Store) (resettoken : String)
    (password password2 : Option String) (now later : Nat)
    (hstate : ResetTokensDistinct store)
    (hsuccess : (resetPassword env store resettoken password now).calls.any
      Call.issuesSession = true) :
    resetPassword env (resetPassword env store resettoken password now).store
        resettoken password2 later
      = ⟨(resetPassword env store resettoken password now).store,
          [.next ⟨"Invalid token", 400⟩]⟩ := by
  cases hfind : store.find? (resetQuery (env.sha256hex resettoken) now) with
  | none => simp [resetPassword, hfind, Call.issuesSession] at hsuccess
  | some user0 =>
    cases hpre : env.presavePassword password with
    | none => simp [resetPassword, hfind, hpre, Call.issuesSession] at hsuccess
    | some hashed =>
      have hstore : (resetPassword env store resettoken password now).store
          = save store { user0 with
              password := hashed
              resetPasswordToken := none
              resetPasswordExpire := none } := by
        simp [resetPassword, hfind, hpre]
      rw [hstore]
      have hmem0 : user0 ∈ store := List.mem_of_find?_eq_some hfind
      have htok0 : user0.resetPasswordToken = some (env.sha256hex resettoken) :=
        resetQuery_token (List.find?_some hfind)
      have hnone : (save store { user0 with
              password := hashed
              resetPasswordToken := none
              resetPasswordExpire := none }).find?
            (resetQuery (env.sha256hex resettoken) later) = none := by
        apply find_resetQuery_none
        intro v hv hvtok
        rcases mem_save hv with rfl | ⟨hvmem, hvid⟩
        · simp at hvtok
        · have hsame : v.id = user0.id :=
            hstate v hvmem user0 hmem0 (by rw [hvtok]; rfl) (by rw [hvtok, htok0])
          exact absurd hsame hvid
      unfold resetPassword
      simp only [hnone]

theorem resetPassword_single_use_witness :
    resetPassword (sampleEnv true)
        (resetPassword (sampleEnv true) [withAbcToken alice, bob] "abc" (some "new1") 500).store
        "abc" (some "new2") 600
      = ⟨(resetPassword (sampleEnv true) [withAbcToken alice, bob] "abc" (some "new1") 500).store,
          [.next ⟨"Invalid token", 400⟩]⟩ :=
  resetPassword_single_use (sampleEnv true) [withAbcToken alice, bob] "abc"
    (some "new1") (some "new2") 500 600 (by unfold ResetTokensDistinct; decide) (by decide)

/-! ## Requesting a password reset -/

/-- Claim C6: for a forgot-password request with an existing user's email, when
`sendEmail` fails the handler forwards `ErrorResponse('Email could not be sent',
500)` and sends no response, and in the final collection the user found under
that email, like every document with that `_id`, has `resetPasswordToken` and
`resetPasswordExpire` unset. -/
theorem forgotPassword_mail_failure (env : Env) (store : Store) (req : ForgotRequest)
    (tok : String) (now : Nat) (user : User)
    (huser : findOneByEmail store req.email = some user)
    (hfail : env.sendEmail
      { email := user.email
        subject := "Password reset token"
        message := resetMessage req tok } = false) :
    (forgotPassword env store req tok now).calls
      = [.next ⟨"Email could not be sent", 500⟩] ∧
    (∀ c ∈ (forgotPassword env store req tok now).calls, c.isResponse = false) ∧
    findOneByEmail (forgotPassword env store req tok now).store req.email
      = some { user with resetPasswordToken := none, resetPasswordExpire := none } ∧
    (∀ v ∈ (forgotPassword env store req tok now).store, v.id = user.id →
      v.resetPasswordToken = none ∧ v.resetPasswordExpire = none) := by
  have hrun : forgotPassword env store req tok now
      = ⟨save
          (save store { user with
            resetPasswordToken := some (env.sha256hex tok)
            resetPasswordExpire := some (now + env.resetWindow) })
          { user with resetPasswordToken := none, resetPasswordExpire := none },
        [.next ⟨"Email could not be sent", 500⟩]⟩ := by
    simp [forgotPassword, huser, getResetPasswordToken, hfail]
  have hemail : user.email = req.email := findOneByEmail_email huser
  rw [hrun]
  refine ⟨rfl, ?_, ?_, ?_⟩
  · simp [Call.isResponse]
  · have h1 : findOneByEmail
        (save store { user with
          resetPasswordToken := some (env.sha256hex tok)
          resetPasswordExpire := some (now + env.resetWindow) }) req.email
        = some { user with
          resetPasswordToken := some (env.sha256hex tok)
          resetPasswordExpire := some (now + env.resetWindow) } :=
      findOneByEmail_save huser rfl hemail
    exact findOneByEmail_save h1 rfl hemail
  · intro v hv hid
    rcases mem_save hv with rfl | ⟨_, hne⟩
    · exact ⟨rfl, rfl⟩
    · exact absurd hid hne

theorem forgotPassword_mail_failure_witness :
    (forgotPassword (sampleEnv false) [alice, bob] aliceForgot "abc" 5).calls
      = [.next ⟨"Email could not be sent", 500⟩] ∧
    findOneByEmail (forgotPassword (sampleEnv false) [alice, bob] aliceForgot "abc" 5).store
        "a@x.com"
      = some alice :=
  have h := forgotPassword_mail_failure (sampleEnv false) [alice, bob] aliceForgot "abc" 5
    alice (by decide) (by decide)
  ⟨h.1, h.2.2.1⟩

/-- Claim C10 fails on the code: for an existing user's email and a mailer that
succeeds, `forgotPassword` calls `res.status(200).json(...)` twice, first with
`Email sent` and then with the user document, instead of sending one response. -/
theorem forgotPassword_responds_twice :
    (forgotPassword (sampleEnv true) [alice, bob] aliceForgot "abc" 5).calls
      = [.json 200 none (.text "Email sent"),
         .json 200 none (.user
          { alice with
            resetPasswordToken :=
              some "ba7816bf8f01cfea414140de5dae2223b00361a396177a9cb410ff61f20015ad"
            resetPasswordExpire := some 600005 })] ∧
    ((forgotPassword (sampleEnv true) [alice, bob] aliceForgot "abc" 5).calls.filter
      Call.isResponse).length = 2 := by
  decide

/-! ## Requesting a verification code -/

/-- Claim C8: when the lookup answers with status `true` and a `data` member,
`sendBvnVerification` stores on the requesting user the code together with
`BvnTokenExpire = now + 600000`, leaves every user with another `_id` as found,
and answers 200 with `data` made of exactly `first_name`, `last_name` and
`mobile` of the lookup result. -/
theorem sendBvnVerification_success (store : Store) (userId : Nat) (user : User)
    (response : LookupResponse) (d : LookupData) (now : Nat)
    (huser : findById store userId = some user)
    (hstatus : response.status = .bool true)
    (hdata : response.data = some d) :
    sendBvnVerification store userId (some response) now
      = ⟨save store { user with BvnToken := .num 1234, BvnTokenExpire := some (now + 600000) },
          [.json 200 none (.identity d.first_name d.last_name d.mobile)]⟩ ∧
    findById (sendBvnVerification store userId (some response) now).store userId
      = some { user with BvnToken := .num 1234, BvnTokenExpire := some (now + 600000) } ∧
    (∀ id, id ≠ userId →
      findById (sendBvnVerification store userId (some response) now).store id
        = findById store id) ∧
    (sendBvnVerification store userId (some response) now).store.length = store.length := by
  have hguard : looseEq response.status (.str "false") = false := by
    rw [hstatus]; decide
  have hid : user.id = userId := findById_id huser
  have hrun : sendBvnVerification store userId (some response) now
      = ⟨save store { user with BvnToken := .num 1234, BvnTokenExpire := some (now + 600000) },
          [.json 200 none (.identity d.first_name d.last_name d.mobile)]⟩ := by
    simp [sendBvnVerification, hguard, huser, hdata]
  rw [hrun]
  refine ⟨rfl, ?_, ?_, ?_⟩
  · exact findById_save_self huser hid
  · intro id hne
    apply findById_save_other
    intro h
    exact hne (h.trans hid)
  · simp [save]

theorem sendBvnVerification_success_witness :
    sendBvnVerification [alice, bob] 1
        (some ⟨.bool true, some ⟨.str "Ada", .str "Obi", .str "08012345678"⟩⟩) 5
      = ⟨[aliceCoded, bob],
          [.json 200 none (.identity (.str "Ada") (.str "Obi") (.str "08012345678"))]⟩ :=
  (sendBvnVerification_success [alice, bob] 1 alice
    ⟨.bool true, some ⟨.str "Ada", .str "Obi", .str "08012345678"⟩⟩
    ⟨.str "Ada", .str "Obi", .str "08012345678"⟩ 5 (by decide) rfl rfl).1

/-- Claim C7 fails on the code: for a lookup answer whose status is the boolean
`false` and that has no `data`, the guard `response.status == 'false'` does not
fire; `sendBvnVerification` stores the code and its expiry on the user and then
neither responds nor forwards an error. -/
theorem sendBvnVerification_false_status_stores_code :
    looseEq (.bool false) (.str "false") = false ∧
    sendBvnVerification [alice, bob] 1 (some ⟨.bool false, none⟩) 5
      = ⟨[aliceCoded, bob], []⟩ ∧
    aliceCoded.BvnToken = .num 1234 ∧ aliceCoded.BvnTokenExpire = some 600005 ∧
    sendBvnVerification [alice, bob] 1 (some ⟨.str "false", none⟩) 5
      = ⟨[alice, bob], [.next ⟨"Enter a valid BVN Number", 400⟩]⟩ := by
  decide

/-! ## Verification without an issued code -/

/-- Claim C9 fails on the code: for a user with `BvnToken` and `BvnTokenExpire`
unset and a request body without `bvnCode`, `verifyBvn` answers 200 `User is
verified` and stores `isverifed = true`: the expiry test is false on an unset
expiry and `undefined == undefined` holds. -/
theorem verifyBvn_verifies_without_code :
    alice.BvnToken = .undefined ∧ alice.BvnTokenExpire = none ∧ alice.isverifed = false ∧
    verifyBvn [alice, bob] 1 .undefined 5
      = ⟨[{ alice with isverifed := true }, bob],
          [.json 200 none (.status "success" "User is verified")]⟩ ∧
    verifyBvn [alice, bob] 1 .null 5
      = ⟨[{ alice with isverifed := true }, bob],
          [.json 200 none (.status "success" "User is verified")]⟩ := by
  decide

end Homstall
